import Mathlib

/-!
Verification of the flask-nav extension (`src/flask_nav/__init__.py`).

The code is embedded shallowly:
* Python dicts become association lists (`dictGet`, `dictSet`, `dictSetdefault`,
  `dictDel`), with Python's insertion-order/replace-in-place semantics.
* A stored element is either a plain value or a zero-argument callable; the
  callable may have side effects, modelled by explicitly threading a state `σ`
  through every invocation (`Elem.callable : σ → α × σ`).
* Fallible operations return `Option`/`Except`; `PyErr` names the Python
  exception classes the code can raise.
* `import_module` and `getattr` are abstracted as a namespace environment `NS`
  mapping module names to objects and objects × attribute names to objects.
-/

namespace FlaskNav

/-- `d[k]` read of a Python dict, `none` when the key is absent (KeyError). -/
def dictGet {κ β : Type} [DecidableEq κ] : List (κ × β) → κ → Option β
  | [], _ => none
  | (k', v) :: rest, k => if k' = k then some v else dictGet rest k

/-- `d[k] = v` on a Python dict: replaces in place if present, appends if new. -/
def dictSet {κ β : Type} [DecidableEq κ] : List (κ × β) → κ → β → List (κ × β)
  | [], k, v => [(k, v)]
  | (k', v') :: rest, k, v =>
    if k' = k then (k, v) :: rest else (k', v') :: dictSet rest k v

/-- `d.setdefault(k, v)` on a Python dict: inserts only when the key is absent. -/
def dictSetdefault {κ β : Type} [DecidableEq κ] : List (κ × β) → κ → β → List (κ × β)
  | [], k, v => [(k, v)]
  | (k', v') :: rest, k, v =>
    if k' = k then (k', v') :: rest else (k', v') :: dictSetdefault rest k v

/-- `del d[k]` on a Python dict, `none` when the key is absent (KeyError). -/
def dictDel {κ β : Type} [DecidableEq κ] : List (κ × β) → κ → Option (List (κ × β))
  | [], _ => none
  | (k', v') :: rest, k =>
    if k' = k then some rest else (dictDel rest k).map (fun d => (k', v') :: d)

/-- A value stored in the element registry: a plain (non-callable) value, or a
zero-argument callable whose invocation may read and update an ambient state
`σ` (this models Python side effects such as a call counter). -/
inductive Elem (σ α : Type) where
  | plain (v : α)
  | callable (f : σ → α × σ)

/-- `ElementRegistry`: wraps the internal dict `self._elems` (line 44-46). -/
structure ElementRegistry (σ α : Type) where
  elems : List (String × Elem σ α)

/-- `ElementRegistry.__init__`: `self._elems = {}`. -/
def ElementRegistry.init {σ α : Type} : ElementRegistry σ α := ⟨[]⟩

/-- `ElementRegistry.__getitem__` (lines 48-54): look the key up in `_elems`
(KeyError = `none` when absent), invoke the stored value when it is callable,
otherwise return it unchanged.  The ambient state `σ` is threaded through the
possible invocation. -/
def ElementRegistry.getitem {σ α : Type} (r : ElementRegistry σ α) (key : String)
    (s : σ) : Option (α × σ) :=
  match dictGet r.elems key with
  | none => none
  | some (Elem.callable f) => some (f s)
  | some (Elem.plain v) => some (v, s)

/-- `ElementRegistry.__setitem__` (lines 56-57): `self._elems[key] = value`. -/
def ElementRegistry.setitem {σ α : Type} (r : ElementRegistry σ α) (key : String)
    (value : Elem σ α) : ElementRegistry σ α :=
  ⟨dictSet r.elems key value⟩

/-- `ElementRegistry.__delitem__` (lines 59-60): `del self._elems[key]`,
KeyError (= `none`) when absent. -/
def ElementRegistry.delitem {σ α : Type} (r : ElementRegistry σ α) (key : String) :
    Option (ElementRegistry σ α) :=
  (dictDel r.elems key).map ElementRegistry.mk

/-- `ElementRegistry.__len__` (lines 66-67): `len(self._elems)`. -/
def ElementRegistry.len {σ α : Type} (r : ElementRegistry σ α) : Nat :=
  r.elems.length

/-- `ElementRegistry.__iter__` (lines 62-64).  The body is
`for key in self._elems.keys(): return self[key]` — there is no `yield`, so on
a non-empty registry the function RETURNS the resolved value of the first key
(not an iterator), and on an empty registry it falls through and returns
`None` (= `none` here). -/
def ElementRegistry.iter {σ α : Type} (r : ElementRegistry σ α) (s : σ) :
    Option (α × σ) :=
  match r.elems with
  | [] => none
  | (key, _) :: _ => r.getitem key s

/-- Resolve one stored element: invoke it if callable, else return it. -/
def resolveElem {σ α : Type} : Elem σ α → σ → α × σ
  | Elem.plain v, s => (v, s)
  | Elem.callable f, s => f s

/-- Helper for `iterateSpec`: resolve every entry in order, threading state. -/
def iterateSpecGo {σ α : Type} : List (String × Elem σ α) → σ → List α × σ
  | [], s => ([], s)
  | (_, e) :: rest, s =>
    let p := resolveElem e s
    let q := iterateSpecGo rest p.2
    (p.1 :: q.1, q.2)

/-- Modelled from the spec: the intended `iterate()` behavior — "produces a
lazy sequence over the registry's resolved values", one element per registered
key, factories invoked, in insertion order.  This is the spec-side definition
against which the code's `ElementRegistry.iter` is compared. -/
def ElementRegistry.iterateSpec {σ α : Type} (r : ElementRegistry σ α) (s : σ) :
    List α × σ :=
  iterateSpecGo r.elems s

/-- `n` successive `__getitem__` calls on the same key, threading the ambient
state through each; returns the final state (`none` if any lookup fails). -/
def ElementRegistry.getsState {σ α : Type} (r : ElementRegistry σ α) (key : String) :
    Nat → σ → Option σ
  | 0, s => some s
  | Nat.succ n, s =>
    match r.getitem key s with
    | none => none
    | some (_, s') => r.getsState key n s'

/-- Python exceptions the code under `src/` can raise. -/
inductive PyErr where
  | keyError
  | valueError
  | importError
  | attributeError
  deriving DecidableEq

/-- Is the error one the spec's taxonomy calls `ResolutionError` (deferred
renderer reference could not be resolved: missing namespace = ImportError,
missing attribute segment = AttributeError)? -/
def PyErr.isResolutionError : PyErr → Bool
  | PyErr.importError => true
  | PyErr.attributeError => true
  | _ => false

/-- A value stored in the renderer dict: Python tuples (of strings, the only
shape the code constructs or destructures) are distinguished by
`isinstance(renderer, tuple)` at line 31; every non-tuple object is opaque. -/
inductive RVal (ρ : Type) where
  | tuple (parts : List String)
  | obj (o : ρ)
  deriving DecidableEq

/-- The module/attribute environment behind `import_module` and `getattr`:
`importMod` maps a module name to its module object (`none` = ImportError),
`getattr` maps an object and attribute name to the attribute (`none` =
AttributeError). -/
structure NS (ρ : Type) where
  importMod : String → Option ρ
  getattr : ρ → String → Option ρ

/-- Helper for `splitDots`: accumulates the current segment (reversed). -/
def splitDotsAux : List Char → List Char → List String
  | [], acc => [String.mk acc.reverse]
  | c :: rest, acc =>
    if c = '.' then String.mk acc.reverse :: splitDotsAux rest []
    else splitDotsAux rest (c :: acc)

/-- Python's `cls_name.split('.')` (line 36): split on every `'.'`; an empty
string yields `[""]`, adjacent dots yield empty segments. -/
def splitDots (s : String) : List String := splitDotsAux s.data []

/-- The loop at lines 35-37: `cls = mod; for name in cls_name.split('.'):
cls = getattr(cls, name)` — walk the attribute names one at a time, raising
AttributeError when a segment is missing. -/
def attrWalk {ρ : Type} (ns : NS ρ) : ρ → List String → Except PyErr ρ
  | o, [] => Except.ok o
  | o, n :: rest =>
    match ns.getattr o n with
    | none => Except.error PyErr.attributeError
    | some o' => attrWalk ns o' rest

/-- The `Nav` extension object (lines 70-82): holds the element registry
`self.elems` and the (unused elsewhere) instance dict `self.renderers`. -/
structure NavObj (σ α ρ : Type) where
  elems : ElementRegistry σ α
  renderers : List (Option String × RVal ρ)

/-- `Nav.__init__` without an app: `self.elems = ElementRegistry();
self.renderers = {}`. -/
def Nav.new {σ α ρ : Type} : NavObj σ α ρ :=
  ⟨ElementRegistry.init, []⟩

/-- The slice of `app.extensions` this code touches: the `'nav'` key (holds
the `Nav` object after `init_app`) and the `'nav_renderers'` key (holds the
renderer dict, keyed by `id`, where `id` may be `None`).  `none` on a field
means the key is absent from the dict. -/
structure Ext (σ α ρ : Type) where
  nav : Option (NavObj σ α ρ)
  nav_renderers : Option (List (Option String × RVal ρ))

/-- An extensions dict with neither key present. -/
def Ext.empty {σ α ρ : Type} : Ext σ α ρ := ⟨none, none⟩

/-- The host application object: `extensions = none` models an app object
without an `extensions` attribute (the `hasattr` check at line 89);
`template_globals` models the dict behind `app.add_template_global`. -/
structure App (σ α ρ : Type) where
  extensions : Option (Ext σ α ρ)
  template_globals : List (String × ElementRegistry σ α)

/-- The body of `register_renderer` (lines 15-20) once `app.extensions` is in
hand: `renderers = app.extensions.setdefault('nav_renderers', {})`, then
either `renderers[id] = renderer` (force) or
`renderers.setdefault(id, renderer)`. -/
def register_renderer_ext {σ α ρ : Type} (ext : Ext σ α ρ) (id : Option String)
    (renderer : RVal ρ) (force : Bool) : Ext σ α ρ :=
  let rs := ext.nav_renderers.getD []
  let rs' := if force then dictSet rs id renderer else dictSetdefault rs id renderer
  { ext with nav_renderers := some rs' }

/-- `register_renderer(app, id, renderer, force=True)` (lines 5-20).  Accessing
`app.extensions` on an app without the attribute raises AttributeError,
modelled as `none`. -/
def register_renderer {σ α ρ : Type} (app : App σ α ρ) (id : Option String)
    (renderer : RVal ρ) (force : Bool := true) : Option (App σ α ρ) :=
  match app.extensions with
  | none => none
  | some ext => some { app with extensions := some (register_renderer_ext ext id renderer force) }

/-- `get_renderer(app, id)` (lines 23-41):
`renderer = app.extensions.get('nav_renderers', {})[id]` (KeyError when `id`
is absent, also when the whole `'nav_renderers'` map is absent); a tuple value
is destructured into `mod_name, cls_name` (ValueError unless it has exactly
two parts), the module is imported (ImportError when missing) and the dotted
attribute path is walked; a non-tuple value is returned verbatim. -/
def get_renderer {σ α ρ : Type} (ns : NS ρ) (app : App σ α ρ) (id : Option String) :
    Except PyErr (RVal ρ) :=
  match app.extensions with
  | none => Except.error PyErr.attributeError
  | some ext =>
    match dictGet (ext.nav_renderers.getD []) id with
    | none => Except.error PyErr.keyError
    | some (RVal.obj o) => Except.ok (RVal.obj o)
    | some (RVal.tuple parts) =>
      match parts with
      | [mod_name, cls_name] =>
        match ns.importMod mod_name with
        | none => Except.error PyErr.importError
        | some mod => (attrWalk ns mod (splitDots cls_name)).map RVal.obj
      | _ => Except.error PyErr.valueError

/-- The deferred reference built at line 96:
`simple = (__name__ + '.renderers', 'SimpleRenderer')` with
`__name__ = 'flask_nav'`. -/
def simpleRef {ρ : Type} : RVal ρ :=
  RVal.tuple ["flask_nav.renderers", "SimpleRenderer"]

/-- `Nav.init_app` (lines 84-98): ensure `app.extensions` exists, store `self`
under `'nav'`, expose `self.elems` as template global `'nav'`, then register
the bundled SimpleRenderer reference under `'simple'` (forced) and under
`None` (non-forced). -/
def Nav.init_app {σ α ρ : Type} (self : NavObj σ α ρ) (app : App σ α ρ) :
    App σ α ρ :=
  let ext0 := app.extensions.getD Ext.empty
  let ext1 : Ext σ α ρ := { ext0 with nav := some self }
  let ext2 := register_renderer_ext ext1 (some "simple") simpleRef true
  let ext3 := register_renderer_ext ext2 none simpleRef false
  { extensions := some ext3,
    template_globals := dictSet app.template_globals "nav" self.elems }

/-- `Nav.register_element` (lines 100-116): `self.elems[id] = elem`. -/
def Nav.register_element {σ α ρ : Type} (self : NavObj σ α ρ) (id : String)
    (elem : Elem σ α) : NavObj σ α ρ :=
  { self with elems := self.elems.setitem id elem }

/-- The renderer the dict currently stores for `id` (what `get_renderer`
consults before any resolution): `none` when the id — or the whole renderer
map, or the whole extensions attribute — is absent. -/
def storedRenderer {σ α ρ : Type} (app : App σ α ρ) (id : Option String) :
    Option (RVal ρ) :=
  match app.extensions with
  | none => none
  | some ext => dictGet (ext.nav_renderers.getD []) id

/-- Follows the spec's words (§4.2): resolve a deferred reference by locating
the named module-like namespace, then walking the dotted attribute path one
segment at a time from it.  Used to compare `get_renderer` against direct
import-and-getattr resolution. -/
def resolveDeferredSpec {ρ : Type} (ns : NS ρ) (modName clsName : String) :
    Except PyErr ρ :=
  match ns.importMod modName with
  | none => Except.error PyErr.importError
  | some m => attrWalk ns m (splitDots clsName)

/-! ### Concrete instances used to exercise the theorems -/

/-- A registry holding two plain elements, `"a" ↦ 1` and `"b" ↦ 2`. -/
def c1Registry : ElementRegistry Unit Nat :=
  ⟨[("a", Elem.plain 1), ("b", Elem.plain 2)]⟩

/-- A `Nav` object whose element registry already holds `"x" ↦ 5` before
`init_app` is called (e.g. after a `register_element` call). -/
def c2Nav : NavObj Unit Nat Nat :=
  { elems := ⟨[("x", Elem.plain 5)]⟩, renderers := [] }

/-- An app object without an `extensions` attribute. -/
def c2App : App Unit Nat Nat :=
  { extensions := none, template_globals := [] }

/-- An app whose extensions dict exists but holds neither relevant key. -/
def c4App : App Unit Nat Nat :=
  { extensions := some Ext.empty, template_globals := [] }

/-- A namespace: module `"mymod"` is object `10`, and `getattr 10 "A" = 20`. -/
def c5NS : NS Nat :=
  { importMod := fun m => if m = "mymod" then some 10 else none,
    getattr := fun o a =>
      if o = 10 then (if a = "A" then some 20 else none) else none }

/-- Extensions holding a deferred renderer under `"r"` and a direct one under
`"d"`. -/
def c5Ext : Ext Unit Nat Nat :=
  { nav := none,
    nav_renderers := some
      [(some "r", RVal.tuple ["mymod", "A"]), (some "d", RVal.obj 7)] }

def c5App : App Unit Nat Nat :=
  { extensions := some c5Ext, template_globals := [] }

/-- A namespace resolving nothing at all. -/
def emptyNS : NS Nat :=
  { importMod := fun _ => none, getattr := fun _ _ => none }

/-- An app with an empty extensions dict (no renderer map attached). -/
def c6App : App Unit Nat Nat :=
  { extensions := some Ext.empty, template_globals := [] }

/-- A namespace where module `"m"` exists (object `0`) but has no attributes. -/
def c7NS : NS Nat :=
  { importMod := fun m => if m = "m" then some 0 else none,
    getattr := fun _ _ => none }

/-- Extensions holding two deferred references: one to a missing module, one
to a missing attribute of an existing module. -/
def c7Ext : Ext Unit Nat Nat :=
  { nav := none,
    nav_renderers := some
      [(some "r1", RVal.tuple ["nomod", "A"]), (some "r2", RVal.tuple ["m", "A"])] }

def c7App : App Unit Nat Nat :=
  { extensions := some c7Ext, template_globals := [] }

/-- A namespace where `"flask_nav.renderers"` is object `100` and its
`SimpleRenderer` attribute is object `300`. -/
def c8NS : NS Nat :=
  { importMod := fun m => if m = "flask_nav.renderers" then some 100 else none,
    getattr := fun o a =>
      if o = 100 then (if a = "SimpleRenderer" then some 300 else none) else none }

/-- A fresh app state: no extensions attribute yet. -/
def c8AppFresh : App Unit Nat Nat :=
  { extensions := none, template_globals := [] }

/-- An app that already carries a default renderer (`None ↦ obj 5`). -/
def c8ExtWithDefault : Ext Unit Nat Nat :=
  { nav := none, nav_renderers := some [(none, RVal.obj 5)] }

def c8AppWithDefault : App Unit Nat Nat :=
  { extensions := some c8ExtWithDefault, template_globals := [] }

/-- Extensions holding tuple renderers of arity 0 and arity 3. -/
def c10Ext : Ext Unit Nat Nat :=
  { nav := none,
    nav_renderers := some
      [(some "t0", RVal.tuple []), (some "t3", RVal.tuple ["a", "b", "c"])] }

def c10App : App Unit Nat Nat :=
  { extensions := some c10Ext, template_globals := [] }

/-! ### Dictionary lemmas -/

theorem dictGet_dictSet_self {κ β : Type} [DecidableEq κ] (d : List (κ × β)) (k : κ) (v : β) :
    dictGet (dictSet d k v) k = some v := by
  induction d with
  | nil => simp [dictSet, dictGet]
  | cons hd tl ih =>
    obtain ⟨k', v'⟩ := hd
    by_cases h : k' = k
    · simp [dictSet, dictGet, h]
    · simp [dictSet, dictGet, h, ih]

theorem dictGet_dictSet_ne {κ β : Type} [DecidableEq κ] (d : List (κ × β)) (k k' : κ) (v : β)
    (h : k ≠ k') : dictGet (dictSet d k v) k' = dictGet d k' := by
  induction d with
  | nil => simp [dictSet, dictGet, h]
  | cons hd tl ih =>
    obtain ⟨k₀, v₀⟩ := hd
    by_cases h₀ : k₀ = k
    · subst h₀; simp [dictSet, dictGet, h]
    · simp [dictSet, dictGet, h₀, ih]

theorem dictSetdefault_of_mem {κ β : Type} [DecidableEq κ] {d : List (κ × β)} {k : κ} {c : β}
    (h : dictGet d k = some c) (v : β) : dictSetdefault d k v = d := by
  induction d with
  | nil => simp [dictGet] at h
  | cons hd tl ih =>
    obtain ⟨k', v'⟩ := hd
    by_cases h' : k' = k
    · simp [dictSetdefault, h']
    · simp [dictGet, h'] at h
      simp [dictSetdefault, h', ih h]

theorem dictGet_dictSetdefault_of_none {κ β : Type} [DecidableEq κ] {d : List (κ × β)} {k : κ}
    (h : dictGet d k = none) (v : β) : dictGet (dictSetdefault d k v) k = some v := by
  induction d with
  | nil => simp [dictSetdefault, dictGet]
  | cons hd tl ih =>
    obtain ⟨k', v'⟩ := hd
    by_cases h' : k' = k
    · simp [dictGet, h'] at h
    · simp [dictGet, h'] at h
      simp [dictSetdefault, dictGet, h', ih h]

theorem dictDel_eq_none_iff {κ β : Type} [DecidableEq κ] (d : List (κ × β)) (k : κ) :
    dictDel d k = none ↔ dictGet d k = none := by
  induction d with
  | nil => simp [dictDel, dictGet]
  | cons hd tl ih =>
    obtain ⟨k', v'⟩ := hd
    by_cases h : k' = k
    · simp [dictDel, dictGet, h]
    · simp [dictDel, dictGet, h, Option.map_eq_none', ih]

theorem dictGet_dictSetdefault_ne {κ β : Type} [DecidableEq κ] (d : List (κ × β)) (k k' : κ)
    (v : β) (h : k ≠ k') : dictGet (dictSetdefault d k v) k' = dictGet d k' := by
  induction d with
  | nil => simp [dictSetdefault, dictGet, h]
  | cons hd tl ih =>
    obtain ⟨k₀, v₀⟩ := hd
    by_cases h₀ : k₀ = k
    · subst h₀; simp [dictSetdefault, dictGet, h]
    · simp [dictSetdefault, dictGet, h₀, ih]

theorem attrWalk_error_eq {ρ : Type} (ns : NS ρ) :
    ∀ (l : List String) (o : ρ) (e : PyErr),
      attrWalk ns o l = Except.error e → e = PyErr.attributeError := by
  intro l
  induction l with
  | nil => intro o e h; simp [attrWalk] at h
  | cons n rest ih =>
    intro o e h
    unfold attrWalk at h
    cases hg : ns.getattr o n with
    | none =>
      rw [hg] at h
      injection h with h'
      exact h'.symm
    | some o' => rw [hg] at h; exact ih o' e h

/-! ### Renderer-registry helper lemmas -/

theorem register_renderer_eq_some {σ α ρ : Type} {app : App σ α ρ} {ext : Ext σ α ρ}
    (hext : app.extensions = some ext) (id : Option String) (r : RVal ρ) (force : Bool) :
    register_renderer app id r force =
      some { app with extensions := some (register_renderer_ext ext id r force) } := by
  simp [register_renderer, hext]

theorem stored_register_ext_force {σ α ρ : Type} (ext : Ext σ α ρ) (id : Option String)
    (r : RVal ρ) :
    dictGet ((register_renderer_ext ext id r true).nav_renderers.getD []) id = some r := by
  simp [register_renderer_ext, dictGet_dictSet_self]

theorem stored_register_ext_noforce_of_none {σ α ρ : Type} {ext : Ext σ α ρ}
    {id : Option String} (h : dictGet (ext.nav_renderers.getD []) id = none) (r : RVal ρ) :
    dictGet ((register_renderer_ext ext id r false).nav_renderers.getD []) id = some r := by
  simp [register_renderer_ext, dictGet_dictSetdefault_of_none h]

theorem stored_register_ext_noforce_of_mem {σ α ρ : Type} {ext : Ext σ α ρ}
    {id : Option String} {C : RVal ρ}
    (h : dictGet (ext.nav_renderers.getD []) id = some C) (r : RVal ρ) :
    dictGet ((register_renderer_ext ext id r false).nav_renderers.getD []) id = some C := by
  simp [register_renderer_ext, dictSetdefault_of_mem h, h]

theorem get_renderer_of_none {σ α ρ : Type} (ns : NS ρ) {app : App σ α ρ} {ext : Ext σ α ρ}
    (hext : app.extensions = some ext) {id : Option String}
    (h : dictGet (ext.nav_renderers.getD []) id = none) :
    get_renderer ns app id = Except.error PyErr.keyError := by
  simp [get_renderer, hext, h]

theorem get_renderer_of_obj {σ α ρ : Type} (ns : NS ρ) {app : App σ α ρ} {ext : Ext σ α ρ}
    (hext : app.extensions = some ext) {id : Option String} {o : ρ}
    (h : dictGet (ext.nav_renderers.getD []) id = some (RVal.obj o)) :
    get_renderer ns app id = Except.ok (RVal.obj o) := by
  simp [get_renderer, hext, h]

theorem get_renderer_of_pair {σ α ρ : Type} (ns : NS ρ) {app : App σ α ρ} {ext : Ext σ α ρ}
    (hext : app.extensions = some ext) {id : Option String} {m c : String}
    (h : dictGet (ext.nav_renderers.getD []) id = some (RVal.tuple [m, c])) :
    get_renderer ns app id = (resolveDeferredSpec ns m c).map RVal.obj := by
  cases hm : ns.importMod m with
  | none => simp [get_renderer, hext, h, resolveDeferredSpec, hm, Except.map]
  | some mo => simp [get_renderer, hext, h, resolveDeferredSpec, hm]

theorem get_renderer_of_tuple_arity {σ α ρ : Type} (ns : NS ρ) {app : App σ α ρ}
    {ext : Ext σ α ρ} (hext : app.extensions = some ext) {id : Option String}
    {parts : List String}
    (h : dictGet (ext.nav_renderers.getD []) id = some (RVal.tuple parts))
    (hlen : parts.length ≠ 2) :
    get_renderer ns app id = Except.error PyErr.valueError := by
  rcases parts with _ | ⟨a, _ | ⟨b, _ | ⟨c, rest⟩⟩⟩
  · simp [get_renderer, hext, h]
  · simp [get_renderer, hext, h]
  · simp at hlen
  · simp [get_renderer, hext, h]

theorem resolveDeferredSpec_error_eq {ρ : Type} (ns : NS ρ) (m c : String) (e : PyErr)
    (h : resolveDeferredSpec ns m c = Except.error e) :
    e = PyErr.importError ∨ e = PyErr.attributeError := by
  unfold resolveDeferredSpec at h
  cases hm : ns.importMod m with
  | none =>
    rw [hm] at h
    injection h with h'
    exact Or.inl h'.symm
  | some mo =>
    rw [hm] at h
    exact Or.inr (attrWalk_error_eq ns _ mo e h)

/-! ### Claim theorems -/

/-- C1: the claim says `iterate()` produces a lazy sequence containing the
resolved value of every stored entry, rather than stopping after the first
key.  The code's `__iter__` does not do this: on the registry
`{"a": 1, "b": 2}` it returns just the resolved value of the first key
(`1`) — it is not even a sequence — while the spec-intended iteration yields
both resolved values `[1, 2]`.  (On an empty registry it returns `None`.)
This evaluates the embedded code at the failing input. -/
theorem c1_iter_returns_only_first_resolved_value :
    c1Registry.iter () = some (1, ()) ∧
    c1Registry.iterateSpec () = ([1, 2], ()) ∧
    c1Registry.len = 2 ∧
    (ElementRegistry.init : ElementRegistry Unit Nat).iter () = none := by
  refine ⟨rfl, rfl, rfl, rfl⟩

/-- C2 counterexample: `init_app` does not store a fresh Element Registry
under `"nav"`.  On the concrete input `c2Nav` (a Nav object whose registry
already holds `"x" ↦ 5`) and a fresh app: the value stored under the
`"nav"` extensions key is the Nav object itself (not a registry), and the
registry it exposes as template global `nav` is `c2Nav.elems`, which is not a
fresh (empty) registry. -/
theorem c2_counterexample :
    ((Nav.init_app c2Nav c2App).extensions.map Ext.nav) = some (some c2Nav) ∧
    dictGet (Nav.init_app c2Nav c2App).template_globals "nav" = some c2Nav.elems ∧
    c2Nav.elems ≠ (ElementRegistry.init : ElementRegistry Unit Nat) := by
  refine ⟨rfl, rfl, ?_⟩
  intro h
  have hlen := congrArg (fun r => r.elems.length) h
  simp [c2Nav, ElementRegistry.init] at hlen

/-- C2 amended: `init_app` stores the Nav extension object itself (which
holds the element registry, in whatever state it is at attach time — not
necessarily fresh) under the key `"nav"` in the application's extensions
container, creating the container when absent, and exposes that object's
element registry to the templating layer as a template global named `nav`. -/
theorem c2_amended_stores_nav_object {σ α ρ : Type} (self : NavObj σ α ρ)
    (app : App σ α ρ) :
    ∃ ext : Ext σ α ρ,
      (Nav.init_app self app).extensions = some ext ∧
      ext.nav = some self ∧
      dictGet (Nav.init_app self app).template_globals "nav" = some self.elems := by
  refine ⟨_, rfl, ?_, ?_⟩
  · rfl
  · exact dictGet_dictSet_self app.template_globals "nav" self.elems

/-- C3: after `set(k, f)` for a zero-argument callable `f`, `get(k)` invokes
`f` on the current state and returns `f`'s result (never the factory itself);
the result is not cached — with a call-counting factory, `n` successive
`get(k)` calls advance the counter by exactly `n`; a non-callable stored
value is returned unchanged. -/
theorem c3_factory_invoked_per_get {σ α : Type} :
    (∀ (r : ElementRegistry σ α) (k : String) (f : σ → α × σ) (s : σ),
        (r.setitem k (Elem.callable f)).getitem k s = some (f s)) ∧
    (∀ (r : ElementRegistry Nat α) (k : String) (g : Nat → α) (c n : Nat),
        (r.setitem k (Elem.callable fun m => (g m, m + 1))).getsState k n c =
          some (c + n)) ∧
    (∀ (r : ElementRegistry σ α) (k : String) (v : α) (s : σ),
        (r.setitem k (Elem.plain v)).getitem k s = some (v, s)) := by
  refine ⟨?_, ?_, ?_⟩
  · intro r k f s
    simp [ElementRegistry.setitem, ElementRegistry.getitem, dictGet_dictSet_self]
  · intro r k g c n
    induction n generalizing c with
    | zero => simp [ElementRegistry.getsState]
    | succ n ih =>
      have hg : (r.setitem k (Elem.callable fun m => (g m, m + 1))).getitem k c =
          some (g c, c + 1) := by
        simp [ElementRegistry.setitem, ElementRegistry.getitem, dictGet_dictSet_self]
      rw [ElementRegistry.getsState, hg]
      show (r.setitem k (Elem.callable fun m => (g m, m + 1))).getsState k n (c + 1) =
        some (c + (n + 1))
      rw [ih]
      congr 1
      omega
  · intro r k v s
    simp [ElementRegistry.setitem, ElementRegistry.getitem, dictGet_dictSet_self]

/-- C9: for every key `k` and non-callable value `v`, `set(k, v)` followed by
`get(k)` returns `v` unchanged (and leaves the ambient state untouched),
regardless of the registry's other contents. -/
theorem c9_set_then_get_plain {σ α : Type} (r : ElementRegistry σ α) (k : String)
    (v : α) (s : σ) :
    (r.setitem k (Elem.plain v)).getitem k s = some (v, s) := by
  simp [ElementRegistry.setitem, ElementRegistry.getitem, dictGet_dictSet_self]

/-- C4: for every application state (with an extensions dict), id and
renderers A and B: registering with `force=true` always overwrites (A then B
leaves B); registering with `force=false` is a no-op when the id already
holds a value (so on an id that is initially absent, A then B with
`force=false` leaves A — first registration wins — and on an id holding C,
a non-forced registration leaves C). -/
theorem c4_register_renderer_force_semantics {σ α ρ : Type} (app : App σ α ρ)
    (ext : Ext σ α ρ) (hext : app.extensions = some ext) (id : Option String)
    (A B : RVal ρ) :
    (∃ a1 a2, register_renderer app id A true = some a1 ∧
        register_renderer a1 id B true = some a2 ∧
        storedRenderer a2 id = some B) ∧
    (storedRenderer app id = none →
      ∃ a1 a2, register_renderer app id A false = some a1 ∧
        register_renderer a1 id B false = some a2 ∧
        storedRenderer a1 id = some A ∧ storedRenderer a2 id = some A) ∧
    (∀ C, storedRenderer app id = some C →
      ∃ a1, register_renderer app id B false = some a1 ∧
        storedRenderer a1 id = some C) := by
  have hs : storedRenderer app id = dictGet (ext.nav_renderers.getD []) id := by
    simp [storedRenderer, hext]
  refine ⟨?_, ?_, ?_⟩
  · refine ⟨_, _, register_renderer_eq_some hext id A true,
      register_renderer_eq_some rfl id B true, ?_⟩
    simpa [storedRenderer] using stored_register_ext_force
      (register_renderer_ext ext id A true) id B
  · intro h
    rw [hs] at h
    have h1 := stored_register_ext_noforce_of_none h A
    refine ⟨_, _, register_renderer_eq_some hext id A false,
      register_renderer_eq_some rfl id B false, ?_, ?_⟩
    · simpa [storedRenderer] using h1
    · simpa [storedRenderer] using stored_register_ext_noforce_of_mem h1 B
  · intro C hC
    rw [hs] at hC
    refine ⟨_, register_renderer_eq_some hext id B false, ?_⟩
    simpa [storedRenderer] using stored_register_ext_noforce_of_mem hC B

/-- C4 witness: on a concrete app with an empty extensions dict and id
`"x"`: forced registration of `obj 1` then `obj 2` stores `obj 2`;
non-forced registration of `obj 1` then `obj 2` stores and keeps `obj 1`. -/
theorem c4_witness :
    (∃ a1 a2, register_renderer c4App (some "x") (RVal.obj (1 : Nat)) true = some a1 ∧
        register_renderer a1 (some "x") (RVal.obj 2) true = some a2 ∧
        storedRenderer a2 (some "x") = some (RVal.obj 2)) ∧
    (∃ a1 a2, register_renderer c4App (some "x") (RVal.obj (1 : Nat)) false = some a1 ∧
        register_renderer a1 (some "x") (RVal.obj 2) false = some a2 ∧
        storedRenderer a1 (some "x") = some (RVal.obj 1) ∧
        storedRenderer a2 (some "x") = some (RVal.obj 1)) := by
  have h := c4_register_renderer_force_semantics c4App Ext.empty rfl (some "x")
    (RVal.obj 1) (RVal.obj 2)
  exact ⟨h.1, h.2.1 rfl⟩

/-- C5: when the stored renderer is a deferred reference `(m, c)`,
`get_renderer` returns exactly what direct resolution returns — locate
namespace `m`, then walk the dotted path `c` one attribute at a time — and
this holds for EVERY namespace environment `ns`, i.e. each lookup re-resolves
against the current environment (no memoization); a non-deferred stored value
is returned verbatim. -/
theorem c5_deferred_resolution {σ α ρ : Type} (app : App σ α ρ) (ext : Ext σ α ρ)
    (hext : app.extensions = some ext) (id : Option String) :
    (∀ m c, storedRenderer app id = some (RVal.tuple [m, c]) →
      ∀ ns : NS ρ, get_renderer ns app id = (resolveDeferredSpec ns m c).map RVal.obj) ∧
    (∀ o : ρ, storedRenderer app id = some (RVal.obj o) →
      ∀ ns : NS ρ, get_renderer ns app id = Except.ok (RVal.obj o)) := by
  have hs : storedRenderer app id = dictGet (ext.nav_renderers.getD []) id := by
    simp [storedRenderer, hext]
  constructor
  · intro m c h ns
    rw [hs] at h
    exact get_renderer_of_pair ns hext h
  · intro o h ns
    rw [hs] at h
    exact get_renderer_of_obj ns hext h

/-- C5 witness: with module `"mymod" ↦ 10` and `getattr 10 "A" = 20`, looking
up the deferred renderer `("mymod", "A")` yields `obj 20`, equal to direct
resolution; the direct renderer stored under `"d"` comes back verbatim. -/
theorem c5_witness :
    get_renderer c5NS c5App (some "r") = Except.ok (RVal.obj 20) ∧
    (resolveDeferredSpec c5NS "mymod" "A").map RVal.obj = Except.ok (RVal.obj 20) ∧
    get_renderer c5NS c5App (some "d") = Except.ok (RVal.obj 7) := by
  have h := c5_deferred_resolution c5App c5Ext rfl (some "r")
  have h2 := c5_deferred_resolution c5App c5Ext rfl (some "d")
  refine ⟨?_, rfl, h2.2 7 rfl c5NS⟩
  rw [h.1 "mymod" "A" rfl c5NS]
  rfl

/-- C6: Element Registry `get`/`delete` and `get_renderer` raise KeyError
(the KeyNotFound of the spec) exactly when the requested identifier is not
present in the respective map — in particular for `get_renderer` this covers
the case where no `'nav_renderers'` map was ever attached (the map defaults
to empty, so every id is absent); when the identifier is present no KeyError
is raised. -/
theorem c6_keyNotFound_iff_absent {σ α ρ : Type} :
    (∀ (r : ElementRegistry σ α) (k : String) (s : σ),
        (r.getitem k s = none ↔ dictGet r.elems k = none)) ∧
    (∀ (r : ElementRegistry σ α) (k : String),
        (r.delitem k = none ↔ dictGet r.elems k = none)) ∧
    (∀ (ns : NS ρ) (app : App σ α ρ) (ext : Ext σ α ρ), app.extensions = some ext →
      ∀ id : Option String,
        (get_renderer ns app id = Except.error PyErr.keyError ↔
          dictGet (ext.nav_renderers.getD []) id = none)) := by
  refine ⟨?_, ?_, ?_⟩
  · intro r k s
    unfold ElementRegistry.getitem
    cases hd : dictGet r.elems k with
    | none => simp
    | some e => cases e <;> simp
  · intro r k
    unfold ElementRegistry.delitem
    rw [← dictDel_eq_none_iff]
    simp [Option.map_eq_none']
  · intro ns app ext hext id
    cases hd : dictGet (ext.nav_renderers.getD []) id with
    | none => simp [get_renderer_of_none ns hext hd]
    | some r =>
      cases r with
      | obj o => simp [get_renderer_of_obj ns hext hd]
      | tuple parts =>
        rcases parts with _ | ⟨a, _ | ⟨b, _ | ⟨c, rest⟩⟩⟩
        · simp [get_renderer_of_tuple_arity ns hext hd (by simp)]
        · simp [get_renderer_of_tuple_arity ns hext hd (by simp)]
        · rw [get_renderer_of_pair ns hext hd]
          cases hres : resolveDeferredSpec ns a b with
          | ok v => simp [Except.map]
          | error e =>
            rcases resolveDeferredSpec_error_eq ns a b e hres with h | h <;>
              subst h <;> simp [Except.map]
        · simp [get_renderer_of_tuple_arity ns hext hd (by simp)]

/-- C6 witness: on an empty registry, `get`/`delete` of `"x"` fail; on an app
whose extensions dict has no renderer map at all, `get_renderer` of `"x"`
raises KeyError. -/
theorem c6_witness :
    (ElementRegistry.init : ElementRegistry Unit Nat).getitem "x" () = none ∧
    (ElementRegistry.init : ElementRegistry Unit Nat).delitem "x" = none ∧
    get_renderer emptyNS c6App (some "x") = Except.error PyErr.keyError := by
  obtain ⟨h1, h2, h3⟩ := c6_keyNotFound_iff_absent (σ := Unit) (α := Nat) (ρ := Nat)
  exact ⟨(h1 ElementRegistry.init "x" ()).mpr rfl, (h2 ElementRegistry.init "x").mpr rfl,
    (h3 emptyNS c6App Ext.empty rfl (some "x")).mpr rfl⟩

/-- C7: on a stored deferred reference `(m, c)`, a missing namespace makes
`get_renderer` fail with ImportError and a missing attribute segment along
the dotted path makes it fail with AttributeError — both classified as
ResolutionError by the spec's taxonomy — and in either case the result is
that error, so no fallback renderer is substituted. -/
theorem c7_resolution_errors {σ α ρ : Type} (app : App σ α ρ) (ext : Ext σ α ρ)
    (hext : app.extensions = some ext) (id : Option String) (m c : String) (ns : NS ρ)
    (hstored : storedRenderer app id = some (RVal.tuple [m, c])) :
    (ns.importMod m = none →
      get_renderer ns app id = Except.error PyErr.importError ∧
      PyErr.importError.isResolutionError = true) ∧
    (∀ o : ρ, ns.importMod m = some o →
      ∀ e, attrWalk ns o (splitDots c) = Except.error e →
        get_renderer ns app id = Except.error PyErr.attributeError ∧
        PyErr.attributeError.isResolutionError = true) := by
  have hs : storedRenderer app id = dictGet (ext.nav_renderers.getD []) id := by
    simp [storedRenderer, hext]
  have h : dictGet (ext.nav_renderers.getD []) id = some (RVal.tuple [m, c]) := by
    rw [← hs]; exact hstored
  constructor
  · intro hm
    refine ⟨?_, rfl⟩
    rw [get_renderer_of_pair ns hext h]
    simp [resolveDeferredSpec, hm, Except.map]
  · intro o hm e hw
    have he := attrWalk_error_eq ns _ o e hw
    subst he
    refine ⟨?_, rfl⟩
    rw [get_renderer_of_pair ns hext h]
    simp [resolveDeferredSpec, hm, hw, Except.map]

/-- C7 witness: with a namespace where only module `"m"` exists and no object
has attributes, the deferred reference `("nomod", "A")` fails with
ImportError and `("m", "A")` fails with AttributeError, both resolution
errors. -/
theorem c7_witness :
    get_renderer c7NS c7App (some "r1") = Except.error PyErr.importError ∧
    get_renderer c7NS c7App (some "r2") = Except.error PyErr.attributeError ∧
    PyErr.importError.isResolutionError = true ∧
    PyErr.attributeError.isResolutionError = true := by
  have h1 := c7_resolution_errors c7App c7Ext rfl (some "r1") "nomod" "A" c7NS rfl
  have h2 := c7_resolution_errors c7App c7Ext rfl (some "r2") "m" "A" c7NS rfl
  exact ⟨(h1.1 rfl).1, (h2.2 0 rfl PyErr.attributeError rfl).1, rfl, rfl⟩

/-- C8: `init_app` registers the bundled SimpleRenderer deferred reference
under `"simple"` forced — so after attach the stored `"simple"` renderer is
always that reference, overwriting any prior entry — and under the default
(`None`) id non-forced — so a default renderer present before attach is
preserved; on a fresh application state (no extensions attribute) both the
`"simple"` lookup and the default lookup resolve to the same bundled
SimpleRenderer value. -/
theorem c8_init_app_renderer_registration {σ α ρ : Type} (self : NavObj σ α ρ)
    (app : App σ α ρ) :
    (storedRenderer (Nav.init_app self app) (some "simple") = some simpleRef) ∧
    (∀ (ext : Ext σ α ρ) (r₀ : RVal ρ), app.extensions = some ext →
      dictGet (ext.nav_renderers.getD []) none = some r₀ →
      storedRenderer (Nav.init_app self app) none = some r₀) ∧
    (app.extensions = none →
      storedRenderer (Nav.init_app self app) none = some simpleRef ∧
      ∀ (ns : NS ρ) (mo v : ρ), ns.importMod "flask_nav.renderers" = some mo →
        ns.getattr mo "SimpleRenderer" = some v →
        get_renderer ns (Nav.init_app self app) (some "simple") =
          Except.ok (RVal.obj v) ∧
        get_renderer ns (Nav.init_app self app) none = Except.ok (RVal.obj v)) := by
  have hstored3 : ∀ id, storedRenderer (Nav.init_app self app) id =
      dictGet (dictSetdefault (dictSet ((app.extensions.getD Ext.empty).nav_renderers.getD [])
        (some "simple") simpleRef) none simpleRef) id := fun _ => rfl
  refine ⟨?_, ?_, ?_⟩
  · rw [hstored3]
    rw [dictGet_dictSetdefault_ne _ _ _ _ (by simp)]
    exact dictGet_dictSet_self _ _ _
  · intro ext r₀ hext h₀
    rw [hstored3, hext]
    simp only [Option.getD_some]
    have hd1 : dictGet (dictSet (ext.nav_renderers.getD []) (some "simple") simpleRef)
        none = some r₀ := by
      rw [dictGet_dictSet_ne _ _ _ _ (by simp)]
      exact h₀
    rw [dictSetdefault_of_mem hd1]
    exact hd1
  · intro happ
    have hext3 : (Nav.init_app self app).extensions = some (register_renderer_ext
        (register_renderer_ext { app.extensions.getD Ext.empty with nav := some self }
          (some "simple") simpleRef true) none simpleRef false) := rfl
    have hget : ∀ id, dictGet ((register_renderer_ext (register_renderer_ext
        { app.extensions.getD Ext.empty with nav := some self } (some "simple") simpleRef
        true) none simpleRef false).nav_renderers.getD []) id =
        dictGet [(some "simple", (simpleRef : RVal ρ)), (none, simpleRef)] id := by
      intro id
      rw [happ]
      rfl
    have hsimple : dictGet [(some "simple", (simpleRef : RVal ρ)), (none, simpleRef)]
        (some "simple") =
        some (RVal.tuple ["flask_nav.renderers", "SimpleRenderer"]) := by
      simp [dictGet, simpleRef]
    have hdefault : dictGet [(some "simple", (simpleRef : RVal ρ)), (none, simpleRef)]
        none = some (RVal.tuple ["flask_nav.renderers", "SimpleRenderer"]) := by
      simp [dictGet, simpleRef]
    have hsd : splitDots "SimpleRenderer" = ["SimpleRenderer"] := rfl
    constructor
    · rw [hstored3, happ]
      simp [Ext.empty, dictSet, dictSetdefault, dictGet]
    · intro ns mo v hmo hv
      constructor
      · rw [get_renderer_of_pair ns hext3 ((hget (some "simple")).trans hsimple)]
        simp [resolveDeferredSpec, hmo, hsd, attrWalk, hv, Except.map]
      · rw [get_renderer_of_pair ns hext3 ((hget none).trans hdefault)]
        simp [resolveDeferredSpec, hmo, hsd, attrWalk, hv, Except.map]

/-- C8 witness: attaching a fresh Nav to a fresh app stores the SimpleRenderer
reference under `"simple"`; attaching to an app that already has a default
renderer (`obj 5`) preserves it; on the fresh app, with the bundled module
present in the namespace, both the `"simple"` and the default lookup resolve
to the same object `300`. -/
theorem c8_witness :
    storedRenderer (Nav.init_app (Nav.new : NavObj Unit Nat Nat) c8AppFresh)
      (some "simple") = some simpleRef ∧
    storedRenderer (Nav.init_app (Nav.new : NavObj Unit Nat Nat) c8AppWithDefault)
      none = some (RVal.obj 5) ∧
    get_renderer c8NS (Nav.init_app (Nav.new : NavObj Unit Nat Nat) c8AppFresh)
      (some "simple") = Except.ok (RVal.obj 300) ∧
    get_renderer c8NS (Nav.init_app (Nav.new : NavObj Unit Nat Nat) c8AppFresh)
      none = Except.ok (RVal.obj 300) := by
  have h1 := c8_init_app_renderer_registration (Nav.new : NavObj Unit Nat Nat) c8AppFresh
  have h2 := c8_init_app_renderer_registration (Nav.new : NavObj Unit Nat Nat)
    c8AppWithDefault
  have h3 := (h1.2.2 rfl).2 c8NS 100 300 rfl rfl
  exact ⟨h1.1, h2.2.1 c8ExtWithDefault (RVal.obj 5) rfl rfl, h3.1, h3.2⟩

/-- C10: a stored tuple is always treated as a deferred reference — whatever
the namespace, `get_renderer` never returns a stored tuple verbatim (a caller
cannot register a plain tuple and get it back) — and only 2-tuples are
resolvable: any other arity fails at the destructuring step with ValueError. -/
theorem c10_tuple_never_verbatim {σ α ρ : Type} (app : App σ α ρ) (ext : Ext σ α ρ)
    (hext : app.extensions = some ext) (id : Option String) (parts : List String)
    (ns : NS ρ) (hstored : storedRenderer app id = some (RVal.tuple parts)) :
    (∀ ps : List String, get_renderer ns app id ≠ Except.ok (RVal.tuple ps)) ∧
    (parts.length ≠ 2 → get_renderer ns app id = Except.error PyErr.valueError) := by
  have hs : storedRenderer app id = dictGet (ext.nav_renderers.getD []) id := by
    simp [storedRenderer, hext]
  have h : dictGet (ext.nav_renderers.getD []) id = some (RVal.tuple parts) := by
    rw [← hs]; exact hstored
  constructor
  · intro ps hcontra
    rcases parts with _ | ⟨a, _ | ⟨b, _ | ⟨c, rest⟩⟩⟩
    · rw [get_renderer_of_tuple_arity ns hext h (by simp)] at hcontra
      exact Except.noConfusion hcontra
    · rw [get_renderer_of_tuple_arity ns hext h (by simp)] at hcontra
      exact Except.noConfusion hcontra
    · rw [get_renderer_of_pair ns hext h] at hcontra
      cases hres : resolveDeferredSpec ns a b with
      | ok v => rw [hres] at hcontra; simp [Except.map] at hcontra
      | error e => rw [hres] at hcontra; simp [Except.map] at hcontra
    · rw [get_renderer_of_tuple_arity ns hext h (by simp)] at hcontra
      exact Except.noConfusion hcontra
  · intro hlen
    exact get_renderer_of_tuple_arity ns hext h hlen

/-- C10 witness: stored tuples of arity 0 and 3 both fail with ValueError,
and the arity-0 tuple is not returned verbatim. -/
theorem c10_witness :
    get_renderer emptyNS c10App (some "t0") = Except.error PyErr.valueError ∧
    get_renderer emptyNS c10App (some "t3") = Except.error PyErr.valueError ∧
    get_renderer emptyNS c10App (some "t0") ≠ Except.ok (RVal.tuple []) := by
  have h0 := c10_tuple_never_verbatim c10App c10Ext rfl (some "t0") [] emptyNS rfl
  have h3 := c10_tuple_never_verbatim c10App c10Ext rfl (some "t3") ["a", "b", "c"]
    emptyNS rfl
  exact ⟨h0.2 (by decide), h3.2 (by decide), h0.1 []⟩

end FlaskNav
